import Mathlib

/-!
Verification of the synchronized debounce buffer of `dwidge/hooks-react`
(`src/useSaveState.ts`: `useSaveState` and `useAsyncSaveState`), together
with the deep-equality comparator `deepCompare` (`src/deepCompare.ts`,
re-exported alongside `src/useRecord.ts`).

The hooks are embedded as explicit state-transition functions over a record
holding the two React state cells (`internalState`, `changed`), the three
refs (`internalStateRef`, `changedRef`, `debounceTimerRef`) and, as outputs,
the list of values passed to the external setter. React commits are made
explicit: the effect at useSaveState.ts lines 32-35 is `syncRefs`, the
effect at lines 37-45 is `externalEffect`, and each settled macro step of
the reachability relation is an operation followed by the commit that React
schedules for it.

JavaScript values are modelled by `JSVal`: primitives (number, string,
boolean, null) plus plain objects carrying a reference identity and an
association list of fields. Object identity models JavaScript reference
equality (`===`, `!==`); `deepCompare` ignores it except through the
strict-equality fast path, exactly as in the source. The array branch of
`deepCompare` (useRecord.ts lines 182-192) is the elementwise analogue of
the object branch and no claim exercises arrays, so the value domain here
has no arrays; every other branch of the comparator is translated as
written.
-/

mutual

/-- A JavaScript value: number, string, boolean, null, or a plain object.
An object carries its reference identity `id` (two separately constructed
objects are never `===` even when structurally equal) and its own
enumerable fields in insertion order. -/
inductive JSVal where
  | num (n : Int)
  | str (s : String)
  | boolean (b : Bool)
  | null
  | obj (id : Nat) (fields : JSFields)
deriving DecidableEq

/-- The field list of a JavaScript object, in `Object.keys` order. -/
inductive JSFields where
  | nil
  | cons (key : String) (value : JSVal) (rest : JSFields)
deriving DecidableEq

end

namespace JSFields

/-- `Object.keys(o).length` for the modelled object fields. -/
def length : JSFields → Nat
  | .nil => 0
  | .cons _ _ rest => 1 + rest.length

/-- `o.hasOwnProperty(key)` together with the property read `o[key]`. -/
def lookup : JSFields → String → Option JSVal
  | .nil, _ => none
  | .cons k v rest, key => if k = key then some v else rest.lookup key

end JSFields

/-- JavaScript strict equality `===` on modelled values: primitives compare
by value, objects compare by reference identity. -/
def jsStrictEq : JSVal → JSVal → Bool
  | .num a, .num b => a == b
  | .str a, .str b => a == b
  | .boolean a, .boolean b => a == b
  | .null, .null => true
  | .obj i _, .obj j _ => i == j
  | _, _ => false

mutual

/-- `deepCompare` (useRecord.ts lines 168-211): strict-equality fast path;
then mixed or primitive operands are unequal; then two objects compare by
key count followed by a walk over the keys of the first operand, requiring
each to be present in the second with a deeply equal value. -/
def deepCompare (a : JSVal) (b : JSVal) : Bool :=
  if jsStrictEq a b then true
  else
    match a, b with
    | .obj _ fieldsA, .obj _ fieldsB =>
        fieldsA.length == fieldsB.length && deepCompareFields fieldsA fieldsB
    | _, _ => false

/-- The `for (const key of keysA)` loop of `deepCompare`: every key of the
first object must exist on the second and map to a deeply equal value. -/
def deepCompareFields (fieldsA : JSFields) (fieldsB : JSFields) : Bool :=
  match fieldsA with
  | .nil => true
  | .cons k v rest =>
      (match fieldsB.lookup k with
       | some w => deepCompare v w
       | none => false) && deepCompareFields rest fieldsB

end

/-- `isEqualValue` (useSaveState.ts line 11) lifted to possibly-undefined
operands as the hooks use it: `deepCompare` applied to
`T | undefined` arguments, where `undefined === undefined` holds and
`undefined` never deeply equals a defined value. -/
def isEqualValue : Option JSVal → Option JSVal → Bool
  | none, none => true
  | some a, some b => deepCompare a b
  | _, _ => false

/-- Helper to build the one-field record with key `count` and value `n`,
carrying reference identity `i`. -/
def countObj (i : Nat) (n : Int) : JSVal :=
  .obj i (.cons "count" (.num n) .nil)

/-- Read the `count` field of `v`, defaulting to 0 off-domain (the
scenarios only apply it to single-field `count` records). -/
def getCount : JSVal → Int
  | .obj _ fs =>
      match fs.lookup "count" with
      | some (.num n) => n
      | _ => 0
  | _ => 0

/-- The argument to `setValue` (`SetStateAction<T>`): either a literal new
value or an updater function of a previous value. -/
inductive SetStateAction where
  | literal (v : JSVal)
  | updater (f : JSVal → JSVal)

/-- Resolving a `SetStateAction<T>` against a previous value: the
`typeof action === "function"` branch of both setters. -/
def resolveAction : SetStateAction → JSVal → JSVal
  | .literal v, _ => v
  | .updater f, prev => f prev

/-- The mutable core of one `useSaveState` / `useAsyncSaveState` instance:
the two React state cells, the three refs, with the pending debounce timer
modelled by its absolute fire time (`none` when no timer is pending — at
most one timer is ever pending, as the source keeps a single
`debounceTimerRef` and clears it before rearming). -/
structure SaveState where
  internalState : Option JSVal
  changed : Bool
  internalRef : Option JSVal
  changedRef : Bool
  timer : Option Nat
deriving DecidableEq

/-- State after the first render (useSaveState.ts lines 23-30): both state
cells initialised from the external value and `false`, the refs initialised
from the state, no timer. -/
def initState (external : Option JSVal) : SaveState :=
  { internalState := external
    changed := false
    internalRef := external
    changedRef := false
    timer := none }

/-- The effect at useSaveState.ts lines 32-35, run on every commit where
`internalState` or `changed` changed: refresh the refs from the state. -/
def syncRefs (s : SaveState) : SaveState :=
  { s with internalRef := s.internalState, changedRef := s.changed }

/-- The effect at useSaveState.ts lines 37-45, run on every commit where
the external value changed: while not dirty, adopt an external value that
is not deeply equal to the internal one into both the ref and the state. -/
def externalEffect (external : Option JSVal) (s : SaveState) : SaveState :=
  if !s.changedRef && !isEqualValue s.internalRef external then
    { s with internalRef := external, internalState := external }
  else s

/-- Function `setValue` of `useSaveState` (lines 47-75). The closure exists only when
the render-time `internalState` was defined; `snapshot` is that render-time
value, which the updater branch receives (`useMemoValue`, not under `src/`,
only memoises the closure over its dependency tuple `[internalState]`, so
the factory argument is the rendering `internalState`). A resolved value
deeply equal to `internalStateRef.current` is dropped; otherwise the state
and the ref are updated synchronously, `changed` is set, and with
`debounceMs` configured the pending timer is cancelled and rearmed to fire
`debounceMs` after `now`. No external write happens here. -/
def setValue (debounceMs : Option Nat) (now : Nat) (snapshot : JSVal)
    (action : SetStateAction) (s : SaveState) : SaveState :=
  let updated := resolveAction action snapshot
  if !isEqualValue (some updated) s.internalRef then
    { s with
        internalState := some updated
        internalRef := some updated
        changed := true
        timer :=
          match debounceMs with
          | some ms => some (now + ms)
          | none => s.timer }
  else s

/-- Function `save` of `useSaveState` (lines 77-86): when `changedRef` holds, an
external setter exists and `internalStateRef.current` is defined, pass the
ref value to the external setter and clear the `changed` state cell; the
second component lists the external writes performed (none or one). The
`changedRef` ref itself is only refreshed by the next commit. -/
def save (hasSetter : Bool) (s : SaveState) : SaveState × List JSVal :=
  match s.internalRef with
  | some v =>
      if s.changedRef && hasSetter then ({ s with changed := false }, [v])
      else (s, [])
  | none => (s, [])

/-- Function `revert` of `useSaveState` (lines 88-93): when `changedRef` holds, put
the render-time external value back into the internal state cell and clear
`changed`; the refs are refreshed only by the next commit. -/
def revert (external : Option JSVal) (s : SaveState) : SaveState :=
  if s.changedRef then { s with internalState := external, changed := false }
  else s

/-- The debounce timer callback (lines 65-67): when a timer is pending, it
fires `save` and is spent. Clearing a fired handle later is a no-op, so the
pending timer is simply consumed. -/
def timerFire (hasSetter : Bool) (s : SaveState) : SaveState × List JSVal :=
  match s.timer with
  | some _ =>
      let (s1, w) := save hasSetter s
      ({ s1 with timer := none }, w)
  | none => (s, [])

/-- The unmount effect (lines 95-105): when auto-save-on-unmount is enabled
or a debounce interval is configured, and `changedRef` holds, run `save`;
then cancel any pending timer so it can never fire after teardown. -/
def unmount (hasSetter autoSaveOnUnmount : Bool) (debounceMs : Option Nat)
    (s : SaveState) : SaveState × List JSVal :=
  let (s1, w) :=
    if (autoSaveOnUnmount || debounceMs.isSome) && s.changedRef then
      save hasSetter s
    else (s, [])
  ({ s1 with timer := none }, w)

/-- Function `setValue` of `useAsyncSaveState` (lines 139-163). Unlike the
synchronous variant it compares the resolved value to the render-time
`internalState` snapshot with strict equality (`!==`, line 147) instead of
`isEqualValue`, and it does not refresh `internalStateRef` synchronously;
on an accepted value it updates the state cell, sets `changed` and rearms
the debounce timer exactly as the synchronous variant does. -/
def asyncSetValue (debounceMs : Option Nat) (now : Nat) (snapshot : JSVal)
    (action : SetStateAction) (s : SaveState) : SaveState :=
  let updated := resolveAction action snapshot
  if !jsStrictEq updated snapshot then
    { s with
        internalState := some updated
        changed := true
        timer :=
          match debounceMs with
          | some ms => some (now + ms)
          | none => s.timer }
  else s

/-- The eventual outcome of the promise returned by an asynchronous
external setter. -/
inductive WriteOutcome where
  | resolves
  | rejects
deriving DecidableEq

/-- Function `save` of `useAsyncSaveState` (lines 165-174). The body is the
same as the synchronous `save`: it calls the external setter and then
immediately runs `setChanged(false)`; the promise returned by the setter is
neither awaited nor observed, so the resulting state and write list are
independent of `outcome` — the parameter only names the eventual fate of
the external write so that claims about rejection can be stated. -/
def asyncSave (hasSetter : Bool) (_outcome : WriteOutcome) (s : SaveState) :
    SaveState × List JSVal :=
  match s.internalRef with
  | some v =>
      if s.changedRef && hasSetter then ({ s with changed := false }, [v])
      else (s, [])
  | none => (s, [])

/-- Function `revert` of `useAsyncSaveState` (lines 176-182): like the
synchronous `revert` but it also clears `changedRef` synchronously. -/
def asyncRevert (external : Option JSVal) (s : SaveState) : SaveState :=
  if s.changedRef then
    { s with internalState := external, changed := false, changedRef := false }
  else s

/-- The debounce timer callback of `useAsyncSaveState` (lines 155-157). -/
def asyncTimerFire (hasSetter : Bool) (outcome : WriteOutcome)
    (s : SaveState) : SaveState × List JSVal :=
  match s.timer with
  | some _ =>
      let (s1, w) := asyncSave hasSetter outcome s
      ({ s1 with timer := none }, w)
  | none => (s, [])

/-- Settled states of one `useSaveState` instance: the states observable
between React commits, starting from the first render and closed under each
operation followed by the commit it schedules. The `set` step allows an
arbitrary snapshot, which over-approximates the states reachable through
stale closures; every invariant below holds on this superset. The
components are the buffer state and the current external value. -/
inductive Reach (hasSetter : Bool) (debounceMs : Option Nat) :
    SaveState → Option JSVal → Prop where
  | init (external : Option JSVal) :
      Reach hasSetter debounceMs (initState external) external
  | set {s external} (now : Nat) (snapshot : JSVal)
      (action : SetStateAction) :
      Reach hasSetter debounceMs s external →
      Reach hasSetter debounceMs
        (syncRefs (setValue debounceMs now snapshot action s)) external
  | saveStep {s external} :
      Reach hasSetter debounceMs s external →
      Reach hasSetter debounceMs (syncRefs (save hasSetter s).1) external
  | revertStep {s external} :
      Reach hasSetter debounceMs s external →
      Reach hasSetter debounceMs (syncRefs (revert external s)) external
  | externalStep {s external} (next : Option JSVal) :
      Reach hasSetter debounceMs s external →
      Reach hasSetter debounceMs (externalEffect next s) next
  | fireStep {s external} :
      Reach hasSetter debounceMs s external →
      Reach hasSetter debounceMs (syncRefs (timerFire hasSetter s).1) external

/-- Settled states of one `useAsyncSaveState` instance, built like `Reach`
from the asynchronous operations. -/
inductive AsyncReach (hasSetter : Bool) (debounceMs : Option Nat) :
    SaveState → Option JSVal → Prop where
  | init (external : Option JSVal) :
      AsyncReach hasSetter debounceMs (initState external) external
  | set {s external} (now : Nat) (snapshot : JSVal)
      (action : SetStateAction) :
      AsyncReach hasSetter debounceMs s external →
      AsyncReach hasSetter debounceMs
        (syncRefs (asyncSetValue debounceMs now snapshot action s)) external
  | saveStep {s external} (outcome : WriteOutcome) :
      AsyncReach hasSetter debounceMs s external →
      AsyncReach hasSetter debounceMs
        (syncRefs (asyncSave hasSetter outcome s).1) external
  | revertStep {s external} :
      AsyncReach hasSetter debounceMs s external →
      AsyncReach hasSetter debounceMs (syncRefs (asyncRevert external s))
        external
  | externalStep {s external} (next : Option JSVal) :
      AsyncReach hasSetter debounceMs s external →
      AsyncReach hasSetter debounceMs (externalEffect next s) next
  | fireStep {s external} (outcome : WriteOutcome) :
      AsyncReach hasSetter debounceMs s external →
      AsyncReach hasSetter debounceMs
        (syncRefs (asyncTimerFire hasSetter outcome s).1) external

/-- A settled state: the refs agree with the React state cells, as
established by the commit effect `syncRefs`. -/
def Settled (s : SaveState) : Prop :=
  s.internalRef = s.internalState ∧ s.changedRef = s.changed

/-- One timed local write to `useSaveState` followed by its React commit:
when the hook rendered with a defined internal value it exposes `setValue`
closed over that value, and the consumer calls it at time `t`; while the
internal value is undefined the hook returns `undefined` for `setValue`
(line 73) and no call can happen. -/
def applySet (debounceMs : Option Nat) (t : Nat) (action : SetStateAction)
    (s : SaveState) : SaveState :=
  match s.internalState with
  | some snapshot => syncRefs (setValue debounceMs t snapshot action s)
  | none => s

/-- Timed execution of one `useSaveState` instance: the timed `setValue`
calls are processed in order, a pending debounce timer whose deadline has
been reached fires (and commits) before the next call, and after the last
call any still-pending timer eventually fires. The second component lists
every external write with the time at which it happened. -/
def runEvents (hasSetter : Bool) (debounceMs : Option Nat) :
    List (Nat × SetStateAction) → SaveState → SaveState × List (Nat × JSVal)
  | [], s =>
      match s.timer with
      | some fireTime =>
          let (s1, w) := timerFire hasSetter s
          (syncRefs s1, w.map fun v => (fireTime, v))
      | none => (s, [])
  | (t, action) :: rest, s =>
      match s.timer with
      | some fireTime =>
          if fireTime ≤ t then
            let (s1, w) := timerFire hasSetter s
            let (s2, ws) :=
              runEvents hasSetter debounceMs rest
                (applySet debounceMs t action (syncRefs s1))
            (s2, (w.map fun v => (fireTime, v)) ++ ws)
          else
            runEvents hasSetter debounceMs rest (applySet debounceMs t action s)
      | none =>
          runEvents hasSetter debounceMs rest (applySet debounceMs t action s)

/-- The updater of the C3 scenario: build a fresh record whose `count` is
one more than the `count` of the previous value. -/
def incAction : SetStateAction :=
  .updater fun v => countObj 100 (getCount v + 1)

/-- The C3 scenario state: external value is the record with `count` 0, and
the exposed `setValue` is called twice in rapid succession with
`incAction`, before any re-render, so both calls run in the closure whose
render-time snapshot is still the initial record. -/
def rapidDoubleInc : SaveState :=
  setValue none 0 (countObj 0 0) incAction
    (setValue none 0 (countObj 0 0) incAction (initState (some (countObj 0 0))))

/-- A settled dirty `useSaveState` instance: the initial external record
with `count` 0 was locally overwritten by a fresh record with `count` 5,
and the commit has run. -/
def dirtySync : SaveState :=
  syncRefs
    (setValue none 0 (countObj 0 0) (.literal (countObj 1 5))
      (initState (some (countObj 0 0))))

/-- A settled dirty `useAsyncSaveState` instance: the initial external
record with `count` 0 was locally overwritten by a fresh record with
`count` 5, and the commit has run. -/
def asyncDirty : SaveState :=
  syncRefs
    (asyncSetValue none 0 (countObj 0 0) (.literal (countObj 1 5))
      (initState (some (countObj 0 0))))

theorem syncRefs_settled (s : SaveState) : Settled (syncRefs s) := ⟨rfl, rfl⟩

theorem syncRefs_changed (s : SaveState) :
    (syncRefs s).changed = s.changed := rfl

theorem syncRefs_internalState (s : SaveState) :
    (syncRefs s).internalState = s.internalState := rfl

/-- The dirty-implies-defined invariant is preserved by every settled step
of `useSaveState`, and the refs are re-synchronised by each commit. -/
theorem reach_invariant {hasSetter : Bool} {debounceMs : Option Nat}
    {s : SaveState} {external : Option JSVal}
    (h : Reach hasSetter debounceMs s external) :
    Settled s ∧ (s.changed = true → s.internalState ≠ none) := by
  induction h with
  | init e =>
      refine ⟨⟨rfl, rfl⟩, ?_⟩
      intro hch
      simp [initState] at hch
  | set now snapshot action _ ih =>
      refine ⟨syncRefs_settled _, ?_⟩
      rw [syncRefs_changed, syncRefs_internalState]
      unfold setValue
      dsimp only
      split
      · intro _
        simp
      · exact ih.2
  | saveStep _ ih =>
      refine ⟨syncRefs_settled _, ?_⟩
      rw [syncRefs_changed, syncRefs_internalState]
      unfold save
      split
      · split
        · intro hch
          simp at hch
        · exact ih.2
      · exact ih.2
  | revertStep _ ih =>
      refine ⟨syncRefs_settled _, ?_⟩
      rw [syncRefs_changed, syncRefs_internalState]
      unfold revert
      split
      · intro hch
        simp at hch
      · exact ih.2
  | externalStep next _ ih =>
      obtain ⟨⟨hir, hcr⟩, hdd⟩ := ih
      unfold externalEffect
      split
      · next hguard =>
          refine ⟨⟨rfl, hcr⟩, ?_⟩
          intro hch
          simp only [Bool.and_eq_true, Bool.not_eq_true'] at hguard
          rw [hcr, hch] at hguard
          simp at hguard
      · exact ⟨⟨hir, hcr⟩, hdd⟩
  | fireStep _ ih =>
      refine ⟨syncRefs_settled _, ?_⟩
      rw [syncRefs_changed, syncRefs_internalState]
      unfold timerFire
      split
      · dsimp only
        unfold save
        split
        · split
          · intro hch
            simp at hch
          · exact ih.2
        · exact ih.2
      · exact ih.2

/-- The dirty-implies-defined invariant is preserved by every settled step
of `useAsyncSaveState`, and the refs are re-synchronised by each commit. -/
theorem asyncReach_invariant {hasSetter : Bool} {debounceMs : Option Nat}
    {s : SaveState} {external : Option JSVal}
    (h : AsyncReach hasSetter debounceMs s external) :
    Settled s ∧ (s.changed = true → s.internalState ≠ none) := by
  induction h with
  | init e =>
      refine ⟨⟨rfl, rfl⟩, ?_⟩
      intro hch
      simp [initState] at hch
  | set now snapshot action _ ih =>
      refine ⟨syncRefs_settled _, ?_⟩
      rw [syncRefs_changed, syncRefs_internalState]
      unfold asyncSetValue
      dsimp only
      split
      · intro _
        simp
      · exact ih.2
  | saveStep outcome _ ih =>
      refine ⟨syncRefs_settled _, ?_⟩
      rw [syncRefs_changed, syncRefs_internalState]
      unfold asyncSave
      split
      · split
        · intro hch
          simp at hch
        · exact ih.2
      · exact ih.2
  | revertStep _ ih =>
      refine ⟨syncRefs_settled _, ?_⟩
      rw [syncRefs_changed, syncRefs_internalState]
      unfold asyncRevert
      split
      · intro hch
        simp at hch
      · exact ih.2
  | externalStep next _ ih =>
      obtain ⟨⟨hir, hcr⟩, hdd⟩ := ih
      unfold externalEffect
      split
      · next hguard =>
          refine ⟨⟨rfl, hcr⟩, ?_⟩
          intro hch
          simp only [Bool.and_eq_true, Bool.not_eq_true'] at hguard
          rw [hcr, hch] at hguard
          simp at hguard
      · exact ⟨⟨hir, hcr⟩, hdd⟩
  | fireStep outcome _ ih =>
      refine ⟨syncRefs_settled _, ?_⟩
      rw [syncRefs_changed, syncRefs_internalState]
      unfold asyncTimerFire
      split
      · dsimp only
        unfold asyncSave
        split
        · split
          · intro hch
            simp at hch
          · exact ih.2
        · exact ih.2
      · exact ih.2

theorem jsStrictEq_refl (a : JSVal) : jsStrictEq a a = true := by
  cases a <;> simp [jsStrictEq]

theorem deepCompare_refl (a : JSVal) : deepCompare a a = true := by
  unfold deepCompare
  rw [jsStrictEq_refl]
  simp

theorem isEqualValue_refl (x : Option JSVal) : isEqualValue x x = true := by
  cases x <;> simp [isEqualValue, deepCompare_refl]

theorem save_noSetter (s : SaveState) : save false s = (s, []) := by
  unfold save
  cases s.internalRef <;> simp

theorem timerFire_noSetter (s : SaveState) :
    timerFire false s = ({ s with timer := none }, []) := by
  obtain ⟨inSt, ch, inRef, chRef, t⟩ := s
  unfold timerFire
  cases t <;> simp [save_noSetter]

theorem runEvents_noSetter (debounceMs : Option Nat)
    (events : List (Nat × SetStateAction)) (s : SaveState) :
    (runEvents false debounceMs events s).2 = [] := by
  induction events generalizing s with
  | nil =>
      cases htimer : s.timer <;>
        simp [runEvents, htimer, timerFire_noSetter]
  | cons ev rest ih =>
      obtain ⟨t, action⟩ := ev
      cases htimer : s.timer with
      | none => simpa [runEvents, htimer] using ih _
      | some fireTime =>
          by_cases hle : fireTime ≤ t
          · simp [runEvents, htimer, hle, timerFire_noSetter, ih]
          · simp [runEvents, htimer, hle, ih]


/-- C4: for every reachable settled state of `useSaveState`, whenever
`changed` is true and an external setter exists, `save` calls the external
setter exactly once, with the latest internal value, and clears `changed`;
when `changed` is false, or when no external setter exists, `save` performs
no external write and leaves the state exactly as it was. -/
theorem c4_flush_semantics {hasSetter : Bool} {debounceMs : Option Nat}
    {s : SaveState} {external : Option JSVal}
    (h : Reach hasSetter debounceMs s external) :
    (s.changed = true → ∀ v, s.internalState = some v →
        save true s = ({ s with changed := false }, [v])) ∧
    (s.changed = false → save hasSetter s = (s, [])) ∧
    save false s = (s, []) := by
  obtain ⟨⟨hir, hcr⟩, _⟩ := reach_invariant h
  refine ⟨?_, ?_, save_noSetter s⟩
  · intro hch v hv
    unfold save
    rw [hir, hv]
    dsimp only
    rw [hcr, hch]
    simp
  · intro hch
    unfold save
    cases hir' : s.internalRef
    · rfl
    · dsimp only
      rw [hcr, hch]
      simp

/-- Witness for C4 at a concrete dirty instance of `useSaveState`. -/
theorem c4_flush_semantics_witness :
    save true dirtySync = ({ dirtySync with changed := false }, [countObj 1 5]) := by
  have hreach : Reach true none dirtySync (some (countObj 0 0)) :=
    Reach.set 0 (countObj 0 0) (.literal (countObj 1 5))
      (Reach.init (some (countObj 0 0)))
  exact (c4_flush_semantics hreach).1 (by decide) (countObj 1 5) (by decide)

/-- C5: for every reachable settled state of `useSaveState` and every
change of the external value, if `changed` is false the internal value
becomes (deeply) equal to the new external value — and is literally
replaced by it whenever the two were not already deeply equal — while if
`changed` is true the external update is ignored and the whole buffer state
is left unchanged. -/
theorem c5_external_gating {hasSetter : Bool} {debounceMs : Option Nat}
    {s : SaveState} {external : Option JSVal}
    (h : Reach hasSetter debounceMs s external) (next : Option JSVal) :
    (s.changed = false →
        isEqualValue (externalEffect next s).internalState next = true ∧
        (isEqualValue s.internalState next = false →
          (externalEffect next s).internalState = next)) ∧
    (s.changed = true → externalEffect next s = s) := by
  obtain ⟨⟨hir, hcr⟩, _⟩ := reach_invariant h
  constructor
  · intro hch
    unfold externalEffect
    rw [hir, hcr, hch]
    cases heq : isEqualValue s.internalState next
    · constructor
      · simp [heq, isEqualValue_refl]
      · intro _
        simp [heq]
    · constructor
      · simp [heq]
      · intro hfalse
        simp at hfalse
  · intro hch
    unfold externalEffect
    rw [hcr, hch]
    simp

/-- Witness for C5 at a concrete clean instance adopting a new external
value. -/
theorem c5_external_gating_witness :
    (externalEffect (some (countObj 2 5))
        (initState (some (countObj 0 0)))).internalState =
      some (countObj 2 5) := by
  have hreach : Reach true none (initState (some (countObj 0 0)))
      (some (countObj 0 0)) := Reach.init (some (countObj 0 0))
  exact ((c5_external_gating hreach (some (countObj 2 5))).1 (by decide)).2
    (by decide)

/-- C8: for every reachable settled state of `useSaveState`, while
`changed` is true `revert` resets the internal value to the render-time
external value and clears `changed` (the source body calls no external
setter, so no external write occurs), and while `changed` is false `revert`
leaves the state exactly as it was. -/
theorem c8_revert_semantics {hasSetter : Bool} {debounceMs : Option Nat}
    {s : SaveState} {external : Option JSVal}
    (h : Reach hasSetter debounceMs s external) :
    (s.changed = true →
        revert external s =
          { s with internalState := external, changed := false }) ∧
    (s.changed = false → revert external s = s) := by
  obtain ⟨⟨_, hcr⟩, _⟩ := reach_invariant h
  constructor
  · intro hch
    unfold revert
    rw [hcr, hch]
    simp
  · intro hch
    unfold revert
    rw [hcr, hch]
    simp

/-- Witness for C8 at a concrete dirty instance of `useSaveState`. -/
theorem c8_revert_semantics_witness :
    revert (some (countObj 0 0)) dirtySync =
      { dirtySync with internalState := some (countObj 0 0), changed := false } := by
  have hreach : Reach true none dirtySync (some (countObj 0 0)) :=
    Reach.set 0 (countObj 0 0) (.literal (countObj 1 5))
      (Reach.init (some (countObj 0 0)))
  exact (c8_revert_semantics hreach).1 (by decide)

/-- C10: in every reachable settled state of `useSaveState` and of
`useAsyncSaveState`, `changed = true` implies that
`internalStateRef.current` is defined, so the extra
`internalStateRef.current !== undefined` conjunct in `save` never suppresses
a flush in a reachable dirty state. -/
theorem c10_guard_never_suppresses :
    (∀ (hasSetter : Bool) (debounceMs : Option Nat) (s : SaveState)
        (external : Option JSVal), Reach hasSetter debounceMs s external →
        s.changed = true → s.internalRef ≠ none) ∧
    (∀ (hasSetter : Bool) (debounceMs : Option Nat) (s : SaveState)
        (external : Option JSVal), AsyncReach hasSetter debounceMs s external →
        s.changed = true → s.internalRef ≠ none) := by
  constructor
  · intro hasSetter debounceMs s external h hch
    obtain ⟨⟨hir, _⟩, hdd⟩ := reach_invariant h
    rw [hir]
    exact hdd hch
  · intro hasSetter debounceMs s external h hch
    obtain ⟨⟨hir, _⟩, hdd⟩ := asyncReach_invariant h
    rw [hir]
    exact hdd hch

/-- Witness for C10 at a concrete dirty instance of each hook. -/
theorem c10_guard_never_suppresses_witness :
    dirtySync.internalRef ≠ none ∧ asyncDirty.internalRef ≠ none := by
  constructor
  · exact c10_guard_never_suppresses.1 true none dirtySync
      (some (countObj 0 0))
      (Reach.set 0 (countObj 0 0) (.literal (countObj 1 5))
        (Reach.init (some (countObj 0 0))))
      (by decide)
  · exact c10_guard_never_suppresses.2 true none asyncDirty
      (some (countObj 0 0))
      (AsyncReach.set 0 (countObj 0 0) (.literal (countObj 1 5))
        (AsyncReach.init (some (countObj 0 0))))
      (by decide)

/-- C7: for every reachable settled dirty state of `useSaveState` with an
external setter, unmounting with `autoSaveOnUnmount` true or a debounce
interval configured invokes the external setter exactly once, with the
latest internal value, before teardown completes, and leaves no pending
timer behind, so the cancelled timer can never fire after teardown. -/
theorem c7_unmount_flush {autoSaveOnUnmount : Bool} {debounceMs : Option Nat}
    {s : SaveState} {external : Option JSVal}
    (h : Reach true debounceMs s external)
    (henabled : (autoSaveOnUnmount || debounceMs.isSome) = true)
    (hch : s.changed = true) (v : JSVal) (hv : s.internalState = some v) :
    unmount true autoSaveOnUnmount debounceMs s =
      ({ s with changed := false, timer := none }, [v]) := by
  obtain ⟨⟨hir, hcr⟩, _⟩ := reach_invariant h
  unfold unmount
  rw [hcr, hch, henabled]
  dsimp only
  unfold save
  rw [hir, hv]
  dsimp only
  rw [hcr, hch]
  simp

/-- Witness for C7 at a concrete dirty instance of `useSaveState`. -/
theorem c7_unmount_flush_witness :
    unmount true true none dirtySync =
      ({ dirtySync with changed := false, timer := none }, [countObj 1 5]) := by
  have hreach : Reach true none dirtySync (some (countObj 0 0)) :=
    Reach.set 0 (countObj 0 0) (.literal (countObj 1 5))
      (Reach.init (some (countObj 0 0)))
  exact c7_unmount_flush hreach (by decide) (by decide) (countObj 1 5)
    (by decide)

/-- Counterexample to C1 at a concrete reachable dirty settled state of
`useAsyncSaveState` with an external setter: `save` clears `changed`
immediately even when the external write rejects — the source calls the
setter and runs `setChanged(false)` without awaiting or observing the
returned promise, so its behaviour is identical for a resolving and a
rejecting write and `changed` does not remain true for a retry. -/
theorem c1_counterexample :
    asyncDirty.changed = true ∧
    (asyncSave true WriteOutcome.rejects asyncDirty).1.changed = false ∧
    (asyncSave true WriteOutcome.rejects asyncDirty).2 = [countObj 1 5] ∧
    asyncSave true WriteOutcome.rejects asyncDirty =
      asyncSave true WriteOutcome.resolves asyncDirty := by
  decide

/-- C1 amended: in every reachable dirty settled state of
`useAsyncSaveState` with an external setter, `save` passes the current
internal value to the setter and clears `changed` synchronously, with the
same result whether the external write later resolves or rejects. -/
theorem c1_amended_no_await {debounceMs : Option Nat}
    {s : SaveState} {external : Option JSVal}
    (h : AsyncReach true debounceMs s external) (hch : s.changed = true)
    (v : JSVal) (hv : s.internalState = some v) (outcome : WriteOutcome) :
    asyncSave true outcome s = ({ s with changed := false }, [v]) := by
  obtain ⟨⟨hir, hcr⟩, _⟩ := asyncReach_invariant h
  unfold asyncSave
  rw [hir, hv]
  dsimp only
  rw [hcr, hch]
  simp

/-- Witness for the amended C1 at a concrete dirty instance with a
rejecting external write. -/
theorem c1_amended_no_await_witness :
    asyncSave true WriteOutcome.rejects asyncDirty =
      ({ asyncDirty with changed := false }, [countObj 1 5]) := by
  have hreach : AsyncReach true none asyncDirty (some (countObj 0 0)) :=
    AsyncReach.set 0 (countObj 0 0) (.literal (countObj 1 5))
      (AsyncReach.init (some (countObj 0 0)))
  exact c1_amended_no_await hreach (by decide) (countObj 1 5) (by decide)
    WriteOutcome.rejects

/-- Counterexample to C2: a freshly reconstructed record that is deeply
equal — but not reference-equal — to the current internal value is not a
no-op for `useAsyncSaveState`: its `setValue` compares with strict equality
(`!==`, line 147), so the call sets `changed` and arms a debounce timer. -/
theorem c2_counterexample :
    deepCompare (countObj 1 1) (countObj 0 1) = true ∧
    (asyncSetValue (some 500) 7 (countObj 0 1) (.literal (countObj 1 1))
        (initState (some (countObj 0 1)))).changed = true ∧
    (asyncSetValue (some 500) 7 (countObj 0 1) (.literal (countObj 1 1))
        (initState (some (countObj 0 1)))).timer = some 507 := by
  decide

/-- C2 amended: for `useSaveState`, a resolved value deeply equal to
`internalStateRef.current` leaves the whole buffer state (value, dirty
flag, pending timer) exactly unchanged; for `useAsyncSaveState` the no-op
guarantee holds only for a resolved value strictly (`===`) equal to the
render-time snapshot, not for deep equality. -/
theorem c2_amended_noop_guards :
    (∀ (debounceMs : Option Nat) (now : Nat) (snapshot : JSVal)
        (action : SetStateAction) (s : SaveState),
        isEqualValue (some (resolveAction action snapshot)) s.internalRef =
          true →
        setValue debounceMs now snapshot action s = s) ∧
    (∀ (debounceMs : Option Nat) (now : Nat) (snapshot : JSVal)
        (action : SetStateAction) (s : SaveState),
        jsStrictEq (resolveAction action snapshot) snapshot = true →
        asyncSetValue debounceMs now snapshot action s = s) := by
  constructor
  · intro d now snap a s heq
    unfold setValue
    dsimp only
    rw [heq]
    simp
  · intro d now snap a s heq
    unfold asyncSetValue
    dsimp only
    rw [heq]
    simp

/-- Witness for the amended C2: the same deep-equal reconstructed record
that dirties `useAsyncSaveState` is a complete no-op for `useSaveState`. -/
theorem c2_amended_noop_guards_witness :
    setValue (some 500) 7 (countObj 0 1) (.literal (countObj 1 1))
        (initState (some (countObj 0 1))) =
      initState (some (countObj 0 1)) :=
  c2_amended_noop_guards.1 (some 500) 7 (countObj 0 1)
    (.literal (countObj 1 1)) (initState (some (countObj 0 1))) (by decide)

/-- C3 evaluated at the code: starting clean from the external record with
`count` 0 and calling the exposed setter twice in rapid succession with the
increment updater, before any re-render, yields internal value with `count`
1 — not 2 as claimed — because the updater is applied to the render-time
snapshot (line 53) while the deep-equality guard consults the synchronously
refreshed `internalStateRef` (line 56), so the second call resolves to the
same record again and is swallowed as a no-op. `changed` is true and no
timer is armed, as the claim states. -/
theorem c3_rapid_updater_eval :
    rapidDoubleInc.internalState = some (countObj 100 1) ∧
    rapidDoubleInc.changed = true ∧
    rapidDoubleInc.timer = none ∧
    isEqualValue rapidDoubleInc.internalState (some (countObj 0 2)) = false := by
  decide

/-- Counterexample to C9: `setValue` of `useSaveState` (lines 47-75) never
consults the external setter, so in a read-only instance — no setter
supplied — a local write still updates the internal value and sets
`changed`: the buffer state does change, contradicting the claim that
every write operation degrades to a complete no-op. -/
theorem c9_counterexample :
    (setValue none 0 (countObj 0 0) (.literal (countObj 1 5))
        (initState (some (countObj 0 0)))).changed = true ∧
    setValue none 0 (countObj 0 0) (.literal (countObj 1 5))
        (initState (some (countObj 0 0))) ≠
      initState (some (countObj 0 0)) := by
  decide

/-- C9 amended: with no external setter nothing throws (every modelled
operation is total) and no external write ever occurs: `save` is a complete
no-op returning the state unchanged, teardown merely cancels any pending
timer and writes nothing, and an entire timed execution emits no external
write; `setInternalValue`, however, still edits the local buffer. -/
theorem c9_amended_read_only :
    (∀ s : SaveState, save false s = (s, [])) ∧
    (∀ (autoSaveOnUnmount : Bool) (debounceMs : Option Nat) (s : SaveState),
        unmount false autoSaveOnUnmount debounceMs s =
          ({ s with timer := none }, [])) ∧
    (∀ (debounceMs : Option Nat) (events : List (Nat × SetStateAction))
        (s : SaveState), (runEvents false debounceMs events s).2 = []) := by
  refine ⟨save_noSetter, ?_, runEvents_noSetter⟩
  intro auto d s
  cases hguard : ((auto || d.isSome) && s.changedRef) <;>
    simp [unmount, hguard, save_noSetter]

/-- C6: every dirtying local write to `useSaveState` cancels any pending
debounce timer and arms the single timer slot for `debounceMs` after that
write (the model keeps one optional pending timer, as the source keeps one
`debounceTimerRef` cleared before each rearm); consequently, with debounce
500 and three dirtying calls falling within 500ms of the first, the
external setter is invoked exactly once, 500ms after the third call, with
the third value. -/
theorem c6_debounce_coalescing :
    (∀ (ms now : Nat) (snapshot : JSVal) (action : SetStateAction)
        (s : SaveState),
        isEqualValue (some (resolveAction action snapshot)) s.internalRef =
          false →
        (setValue (some ms) now snapshot action s).timer = some (now + ms)) ∧
    (∀ (t1 t2 t3 : Nat) (v0 v1 v2 v3 : JSVal),
        t1 ≤ t2 → t2 ≤ t3 → t3 < t1 + 500 →
        deepCompare v1 v0 = false → deepCompare v2 v1 = false →
        deepCompare v3 v2 = false →
        (runEvents true (some 500)
            [(t1, SetStateAction.literal v1), (t2, SetStateAction.literal v2),
             (t3, SetStateAction.literal v3)]
            (initState (some v0))).2 = [(t3 + 500, v3)]) := by
  constructor
  · intro ms now snap action s heq
    unfold setValue
    dsimp only
    rw [heq]
    simp
  · intro t1 t2 t3 v0 v1 v2 v3 h12 h23 hwin hd1 hd2 hd3
    have hn2 : ¬ (t1 + 500 ≤ t2) := by omega
    have hn3 : ¬ (t2 + 500 ≤ t3) := by omega
    simp [runEvents, applySet, initState, setValue, syncRefs, isEqualValue,
      resolveAction, timerFire, save, hd1, hd2, hd3, hn2, hn3]

/-- Witness for C6: three concrete dirtying calls at 0ms, 100ms and 200ms
with debounce 500 produce exactly one external write, at 700ms, with the
third value. -/
theorem c6_debounce_coalescing_witness :
    (runEvents true (some 500)
        [(0, SetStateAction.literal (countObj 1 1)),
         (100, SetStateAction.literal (countObj 2 2)),
         (200, SetStateAction.literal (countObj 3 3))]
        (initState (some (countObj 0 0)))).2 = [(700, countObj 3 3)] := by
  have h := c6_debounce_coalescing.2 0 100 200 (countObj 0 0) (countObj 1 1)
    (countObj 2 2) (countObj 3 3) (by decide) (by decide) (by decide)
    (by decide) (by decide) (by decide)
  simpa using h
